import Mathlib

/-!
Verification of the election backend (FastAPI + SQLModel source in
`main.py`, `models.py`, `database.py`) against its natural-language
specification.

The six SQLModel tables are embedded as Lean structures and the database as
a `Store` of lists of rows.  `session.get(Model, id)` (a primary-key
lookup) is embedded as `List.find?` on the key field; row update through
the session is embedded as an in-place map on the row with the matching
primary key.  The write endpoints become functions `Store → ... → Store`
(or `Except` for endpoints that can fail with an HTTP error); the read
endpoints become pure functions of the `Store`.  SQL `GROUP BY` is embedded
as `groupCounts` (distinct keys paired with their multiplicities); the
`ORDER BY` clauses of the result views are presentation-only and do not
change which grouped rows exist or their counts, so they are not modelled.

Integer-typed columns that Python treats as truthy/falsy (the two voter
participation flags) are embedded as `Int` and tested against `0`, exactly
as `if voter.has_voted_const:` does.
-/

/-- Table `Regions` (`models.py`). -/
structure Region where
  region_id : Nat
  name_th : String
  total_population : Int
deriving DecidableEq

/-- Table `Constituencies` (`models.py`). -/
structure Constituency where
  const_id : Nat
  region_id : Nat
  const_number : Int
  total_eligible_voters : Int
deriving DecidableEq

/-- Table `Parties` (`models.py`). -/
structure Party where
  party_id : Nat
  party_name : String
  party_leader : Option String
  party_logo_url : Option String
deriving DecidableEq

/-- Table `Candidates` (`models.py`). -/
structure Candidate where
  candidate_id : Nat
  const_id : Nat
  party_id : Nat
  candidate_number : Int
  full_name : String
deriving DecidableEq

/-- Table `Voters` (`models.py`).  The two participation flags are Python
`int`s (`0` = has not voted); the code tests them by truthiness. -/
structure Voter where
  voter_id : Nat
  citizen_id : String
  full_name : String
  const_id : Nat
  has_voted_const : Int
  has_voted_list : Int
deriving DecidableEq

/-- Table `Ballots` (`models.py`).  `voted_at` is an uninterpreted timestamp. -/
structure Ballot where
  ballot_id : Nat
  voter_id : Nat
  const_id : Nat
  candidate_id : Option Nat
  party_id : Option Nat
  vote_type : String
  is_valid : Bool
  voted_at : Nat
deriving DecidableEq

/-- The database state: one list of rows per table. -/
structure Store where
  regions : List Region
  constituencies : List Constituency
  parties : List Party
  candidates : List Candidate
  voters : List Voter
  ballots : List Ballot
deriving DecidableEq

/-- The empty database produced by `create_db_and_tables`. -/
def emptyStore : Store :=
  { regions := [], constituencies := [], parties := [], candidates := []
  , voters := [], ballots := [] }

/-- `session.get(Voter, id)` on a row list: first row with the primary key. -/
def getVoterL (l : List Voter) (i : Nat) : Option Voter :=
  l.find? (fun v => v.voter_id == i)

/-- `session.get(Voter, id)`. -/
def getVoter (s : Store) (i : Nat) : Option Voter := getVoterL s.voters i

/-- `session.get(Region, id)`. -/
def getRegion (s : Store) (i : Nat) : Option Region :=
  s.regions.find? (fun r => r.region_id == i)

/-- `session.get(Constituency, id)`. -/
def getConstituency (s : Store) (i : Nat) : Option Constituency :=
  s.constituencies.find? (fun c => c.const_id == i)

/-- `session.get(Party, id)`. -/
def getParty (s : Store) (i : Nat) : Option Party :=
  s.parties.find? (fun p => p.party_id == i)

/-- `session.get(Candidate, id)`. -/
def getCandidate (s : Store) (i : Nat) : Option Candidate :=
  s.candidates.find? (fun c => c.candidate_id == i)

/-- Committing a mutated `Voter` row: the row with the same primary key is
replaced (`session.add` of an attached row updates it in place). -/
def replaceVoter (l : List Voter) (v2 : Voter) : List Voter :=
  l.map (fun w => if w.voter_id = v2.voter_id then v2 else w)

/-- `session.add(voter); session.commit()` for an updated voter row. -/
def updateVoter (s : Store) (v2 : Voter) : Store :=
  { s with voters := replaceVoter s.voters v2 }

/-- The `Ballot` row as persisted: the autoincrement primary key is
assigned by the database on insert. -/
def persistRecord (s : Store) (b : Ballot) : Ballot :=
  { b with ballot_id := s.ballots.length }

/-- `session.add(ballot); session.commit()`: the row is appended. -/
def persistStore (s : Store) (b : Ballot) : Store :=
  { s with ballots := s.ballots ++ [persistRecord s b] }

/-- `main.py:178-179`: if the submitting voter's home constituency differs
from the ballot's `const_id`, the in-memory ballot is marked invalid
before the vote-type dispatch. -/
def applyMismatch (voter : Voter) (b : Ballot) : Ballot :=
  if voter.const_id ≠ b.const_id then { b with is_valid := false } else b

/-- `main.py:196-203`: the goodness test of the `Constituency` branch —
`candidate_id` present, `party_id` absent, the candidate exists and sits in
the ballot's constituency. -/
def constGoodness (s : Store) (b : Ballot) : Bool :=
  match b.candidate_id, b.party_id with
  | some cid, none =>
    match getCandidate s cid with
    | some cand => cand.const_id == b.const_id
    | none => false
  | _, _ => false

/-- `main.py:220-226`: the goodness test of the `PartyList` branch —
`party_id` present, `candidate_id` absent, and the party exists. -/
def partyGoodness (s : Store) (b : Ballot) : Bool :=
  match b.party_id, b.candidate_id with
  | some pid, none => (getParty s pid).isSome
  | _, _ => false

/-- The goodness predicate of the spec, dispatched on the (recognized)
vote type. -/
def goodnessPred (s : Store) (b : Ballot) : Bool :=
  if b.vote_type = "Constituency" then constGoodness s b else partyGoodness s b

/-- The two hard-rejection reasons of `create_ballot` (HTTP 404 "Voter not
found", HTTP 400 "Already voted constituency" / "Already voted party
list") plus the 404 of `update_voter_status`, kept distinguishable. -/
inductive BallotError where
  | voterNotFound
  | alreadyVotedConstituency
  | alreadyVotedPartyList
deriving DecidableEq

/-- `main.py:205-211`: the ballot as it stands after the `Constituency`
branch set `is_valid = bool(good)` and, when spoiled, cleared both linkage
columns. -/
def constOutcome (s : Store) (b1 : Ballot) : Ballot :=
  if constGoodness s b1 then
    { b1 with is_valid := true }
  else
    { b1 with is_valid := false, party_id := none, candidate_id := none }

/-- `main.py:228-232`: the ballot as it stands after the `PartyList`
branch set `is_valid = bool(good)` and, when spoiled, cleared both linkage
columns. -/
def listOutcome (s : Store) (b1 : Ballot) : Ballot :=
  if partyGoodness s b1 then
    { b1 with is_valid := true }
  else
    { b1 with is_valid := false, candidate_id := none, party_id := none }

/-- `main.py:191-214` after the duplicate check: decide validity from
`constGoodness`, clear both linkage columns when spoiled, persist the
ballot and set `has_voted_const` to `1`. -/
def acceptConstituency (s : Store) (voter : Voter) (b1 : Ballot) :
    Except BallotError (Store × Ballot) :=
  Except.ok
    (updateVoter (persistStore s (constOutcome s b1))
       { voter with has_voted_const := 1 },
     persistRecord s (constOutcome s b1))

/-- `main.py:216-234` after the duplicate check: decide validity from
`partyGoodness`, clear both linkage columns when spoiled, persist the
ballot and set `has_voted_list` to `1`. -/
def acceptPartyList (s : Store) (voter : Voter) (b1 : Ballot) :
    Except BallotError (Store × Ballot) :=
  Except.ok
    (updateVoter (persistStore s (listOutcome s b1))
       { voter with has_voted_list := 1 },
     persistRecord s (listOutcome s b1))

/-- `POST /ballots` (`main.py:171-240`): voter lookup, home-constituency
mismatch marking, unrecognized-vote-type spoilage (persisted, no flag
update), duplicate-vote hard rejections, and the two accept branches. -/
def create_ballot (s : Store) (b : Ballot) : Except BallotError (Store × Ballot) :=
  match getVoter s b.voter_id with
  | none => Except.error BallotError.voterNotFound
  | some voter =>
    let b1 := applyMismatch voter b
    if b1.vote_type ≠ "Constituency" ∧ b1.vote_type ≠ "PartyList" then
      Except.ok (persistStore s { b1 with is_valid := false },
                 persistRecord s { b1 with is_valid := false })
    else if b1.vote_type = "Constituency" then
      if voter.has_voted_const ≠ 0 then
        Except.error BallotError.alreadyVotedConstituency
      else
        acceptConstituency s voter b1
    else
      if voter.has_voted_list ≠ 0 then
        Except.error BallotError.alreadyVotedPartyList
      else
        acceptPartyList s voter b1

/-- `PUT /voters/{voter_id}/status` (`main.py:146-165`): overwrite either
participation flag with any supplied integer. -/
def update_voter_status (s : Store) (vid : Nat) (hvc hvl : Option Int) :
    Except BallotError (Store × Voter) :=
  match getVoter s vid with
  | none => Except.error BallotError.voterNotFound
  | some voter =>
    let v1 := match hvc with
      | some n => { voter with has_voted_const := n }
      | none => voter
    let v2 := match hvl with
      | some n => { v1 with has_voted_list := n }
      | none => v1
    Except.ok (updateVoter s v2, v2)

/-- One state-changing request of the program.  Read-only endpoints do not
change the store and are modelled as the pure view functions below. -/
inductive Op where
  | createRegion (r : Region)
  | createConstituency (c : Constituency)
  | createParty (p : Party)
  | createCandidate (c : Candidate)
  | createVoter (v : Voter)
  | updateVoterStatus (vid : Nat) (hvc hvl : Option Int)
  | createBallot (b : Ballot)
deriving DecidableEq

/-- Is the operation the `PUT /voters/{voter_id}/status` endpoint? -/
def Op.isStatusUpdate : Op → Bool
  | Op.updateVoterStatus _ _ _ => true
  | _ => false

/-- Is the operation a ballot admission (`POST /ballots`, the Ballot
Admission Engine)? -/
def Op.isBallotAdmission : Op → Bool
  | Op.createBallot _ => true
  | _ => false

/-- The store after one request.  Requests that fail with an HTTP error
leave the store unchanged (the session is never committed).  Autoincrement
primary keys are assigned on insert. -/
def step (s : Store) (op : Op) : Store :=
  match op with
  | Op.createRegion r =>
      { s with regions := s.regions ++ [{ r with region_id := s.regions.length }] }
  | Op.createConstituency c =>
      if (getRegion s c.region_id).isSome then
        { s with constituencies :=
            s.constituencies ++ [{ c with const_id := s.constituencies.length }] }
      else s
  | Op.createParty p =>
      { s with parties := s.parties ++ [{ p with party_id := s.parties.length }] }
  | Op.createCandidate c =>
      if (getConstituency s c.const_id).isSome ∧ (getParty s c.party_id).isSome then
        { s with candidates :=
            s.candidates ++ [{ c with candidate_id := s.candidates.length }] }
      else s
  | Op.createVoter v =>
      if (getConstituency s v.const_id).isSome then
        { s with voters := s.voters ++ [{ v with voter_id := s.voters.length }] }
      else s
  | Op.updateVoterStatus vid hvc hvl =>
      match update_voter_status s vid hvc hvl with
      | Except.ok (s', _) => s'
      | Except.error _ => s
  | Op.createBallot b =>
      match create_ballot s b with
      | Except.ok (s', _) => s'
      | Except.error _ => s

/-- A full run of the program from the freshly created empty database. -/
def runOps (ops : List Op) : Store := ops.foldl step emptyStore

/-- Number of persisted ballots of voter `i` with vote type `t` in a row
list. -/
def countTypeL (l : List Ballot) (i : Nat) (t : String) : Nat :=
  (l.filter (fun b => b.voter_id == i && b.vote_type == t)).length

/-- Number of persisted ballots of voter `i` with vote type `t`. -/
def countType (s : Store) (i : Nat) (t : String) : Nat := countTypeL s.ballots i t

/-- SQL `GROUP BY`: the distinct keys of the joined row list, each paired
with its multiplicity.  The `ORDER BY` of the result views only arranges
these pairs and is not modelled. -/
def groupCounts {α : Type} [DecidableEq α] (l : List α) : List (α × Nat) :=
  l.dedup.map (fun k => (k, l.count k))

/-- The joined row `(const_number, candidate_name, party_name)` that a
ballot contributes to `GET /results/constituency` (`main.py:362-396`):
inner joins `Ballot → Constituency → Candidate → Party` filtered to valid
`Constituency` ballots.  `none` when the filter or a join fails. -/
def constDistrictRow (s : Store) (b : Ballot) : Option (Int × String × String) :=
  if b.vote_type = "Constituency" ∧ b.is_valid = true then
    match getConstituency s b.const_id with
    | none => none
    | some c =>
      match b.candidate_id.bind (fun cid => getCandidate s cid) with
      | none => none
      | some cand =>
        match getParty s cand.party_id with
        | none => none
        | some p => some (c.const_number, cand.full_name, p.party_name)
  else none

/-- The joined row `(candidate_name, party_name)` that a ballot contributes
to `GET /results/constituency/overall` (`main.py:430-450`): inner joins
`Ballot → Candidate → Party` filtered to valid `Constituency` ballots. -/
def constOverallRow (s : Store) (b : Ballot) : Option (String × String) :=
  if b.vote_type = "Constituency" ∧ b.is_valid = true then
    match b.candidate_id.bind (fun cid => getCandidate s cid) with
    | none => none
    | some cand =>
      match getParty s cand.party_id with
      | none => none
      | some p => some (cand.full_name, p.party_name)
  else none

/-- `GET /results/constituency`: per-constituency valid `Constituency`
vote counts grouped by `(const_number, candidate_name, party_name)`. -/
def results_constituency_by_district (s : Store) :
    List ((Int × String × String) × Nat) :=
  groupCounts (s.ballots.filterMap (constDistrictRow s))

/-- `GET /results/constituency/overall`: overall valid `Constituency` vote
counts grouped by `(candidate_name, party_name)`. -/
def results_constituency_overall (s : Store) : List ((String × String) × Nat) :=
  groupCounts (s.ballots.filterMap (constOverallRow s))

/-- One rendered item of `GET /ballots` (`main.py:245-292`).  For the two
name columns the outer `Option` records whether the key is present in the
rendered JSON object at all; the inner `Option` is the SQL NULL produced
by a missed outer join. -/
structure BallotView where
  ballot_id : Nat
  voted_at : Nat
  ballot_note : String
  vote_type : String
  candidate_name : Option (Option String)
  party_name : Option (Option String)
deriving DecidableEq

/-- Rendering of one ballot by `GET /ballots`: outer joins for the
candidate name and the coalesced party name (party of the ballot first,
else party of the joined candidate), then the name keys are attached only
to valid ballots of the matching vote type. -/
def render_ballot (s : Store) (b : Ballot) : BallotView :=
  let cand := b.candidate_id.bind (fun cid => getCandidate s cid)
  let partyOfBallot := b.party_id.bind (fun pid => getParty s pid)
  let partyOfCand := cand.bind (fun c => getParty s c.party_id)
  let candidateName : Option String := cand.map (fun c => c.full_name)
  let partyName : Option String :=
    match partyOfBallot with
    | some p => some p.party_name
    | none => partyOfCand.map (fun p => p.party_name)
  { ballot_id := b.ballot_id
  , voted_at := b.voted_at
  , ballot_note := if b.is_valid then "บัตรดี" else "บัตรเสีย"
  , vote_type := b.vote_type
  , candidate_name :=
      if b.is_valid = true ∧ b.vote_type = "Constituency" then some candidateName
      else none
  , party_name :=
      if b.is_valid = true ∧ b.vote_type = "PartyList" then some partyName
      else none }

/-- `GET /ballots`: every persisted ballot rendered, in `ballot_id`
(insertion) order. -/
def get_ballots_final (s : Store) : List BallotView :=
  s.ballots.map (render_ballot s)

/-- A populated registry and ledger used to evaluate concrete requests:
two constituencies of one region, one party, one candidate per
constituency, voter 0 (home constituency 0, has not voted) and voter 1
(home constituency 0, both flags already set). -/
def baseStore : Store :=
  { regions := [⟨0, "Region A", 20⟩]
  , constituencies := [⟨0, 0, 1, 10⟩, ⟨1, 0, 2, 10⟩]
  , parties := [⟨0, "Party A", none, none⟩]
  , candidates := [⟨0, 0, 0, 1, "Candidate One"⟩, ⟨1, 1, 0, 1, "Candidate Two"⟩]
  , voters := [⟨0, "1111", "Voter One", 0, 0, 0⟩, ⟨1, "2222", "Voter Two", 0, 1, 1⟩]
  , ballots := [] }

/-- An unrecognized-vote-type submission by voter 0 that carries both
linkage columns. -/
def cb2 : Ballot := ⟨0, 0, 0, some 0, some 0, "Referendum", true, 0⟩

/-- Voter 0 (home constituency 0) voting in constituency 1 for candidate 1,
who belongs to constituency 1: a home-constituency mismatch whose goodness
test nonetheless passes. -/
def cb3 : Ballot := ⟨0, 0, 1, some 1, none, "Constituency", true, 0⟩

/-- A `Constituency` submission by voter 0 with no candidate chosen
(spoiled, but persisted and flag-consuming). -/
def cb4 : Ballot := ⟨0, 0, 0, none, none, "Constituency", true, 0⟩

/-- Setup requests followed by one `Constituency` ballot of voter 0. -/
def c4OpsBase : List Op :=
  [Op.createRegion ⟨99, "R", 20⟩, Op.createConstituency ⟨99, 0, 1, 0⟩,
   Op.createVoter ⟨99, "3333", "V", 0, 0, 0⟩, Op.createBallot cb4]

/-- The same run continued with a status override resetting the flag and a
second `Constituency` ballot of the same voter. -/
def c4Ops : List Op :=
  c4OpsBase ++ [Op.updateVoterStatus 0 (some 0) none, Op.createBallot cb4]

/-- A `PartyList` submission by voter 0 with both linkage columns set
(goodness fails). -/
def cb5 : Ballot := ⟨0, 0, 0, some 0, some 0, "PartyList", true, 0⟩

/-- The store and record persisted for `cb5`. -/
def c5Res : Store × Ballot :=
  ((create_ballot baseStore cb5).toOption).getD (emptyStore, cb5)

/-- A well-formed `Constituency` submission by voter 0 for candidate 0. -/
def cb6 : Ballot := ⟨0, 0, 0, some 0, none, "Constituency", true, 0⟩

/-- The store and record persisted for `cb6`. -/
def c6Res : Store × Ballot :=
  ((create_ballot baseStore cb6).toOption).getD (emptyStore, cb6)

/-- A well-formed `PartyList` submission by voter 0 for party 0. -/
def cb7 : Ballot := ⟨0, 0, 0, none, some 0, "PartyList", true, 0⟩

/-- The store and record persisted for `cb7`. -/
def c7Res : Store × Ballot :=
  ((create_ballot baseStore cb7).toOption).getD (emptyStore, cb7)

/-- A submission naming voter 5, who does not exist in `baseStore`. -/
def cb8a : Ballot := ⟨0, 5, 0, some 0, none, "Constituency", true, 0⟩

/-- A `Constituency` submission by voter 1, whose flag is already set. -/
def cb8b : Ballot := ⟨0, 1, 0, some 0, none, "Constituency", true, 0⟩

/-- `baseStore` with three persisted ballots: a valid `Constituency` vote,
a spoiled `Constituency` vote and a valid `PartyList` vote. -/
def store9 : Store :=
  { baseStore with ballots :=
      [⟨0, 0, 0, some 0, none, "Constituency", true, 0⟩,
       ⟨1, 1, 0, none, none, "Constituency", false, 0⟩,
       ⟨2, 0, 0, none, some 0, "PartyList", true, 0⟩] }

/-- In a run from the empty database the autoincrement voter ids enumerate
`0, 1, ..., n-1` in insertion order. -/
def VoterIdsOk (s : Store) : Prop :=
  s.voters.map (fun v => v.voter_id) = List.range s.voters.length

/-- Every persisted ballot references a voter row (admission looks the
voter up before persisting, and voters are never deleted). -/
def BallotsRefOk (s : Store) : Prop :=
  ∀ b ∈ s.ballots, b.voter_id < s.voters.length

/-- The ledger flags dominate the per-type ballot counts: each voter has
at most one persisted ballot per recognized vote type, and none at all
while the matching flag is still `0`. -/
def FlagSync (s : Store) : Prop :=
  ∀ i v, getVoter s i = some v →
    (countType s i "Constituency" ≤ 1 ∧
       (v.has_voted_const = 0 → countType s i "Constituency" = 0)) ∧
    (countType s i "PartyList" ≤ 1 ∧
       (v.has_voted_list = 0 → countType s i "PartyList" = 0))

/-- The inductive invariant of a run without status overrides. -/
def LedgerInv (s : Store) : Prop := VoterIdsOk s ∧ BallotsRefOk s ∧ FlagSync s

/-! ### Basic facts about the embedding -/

theorem applyMismatch_vote_type (v : Voter) (b : Ballot) :
    (applyMismatch v b).vote_type = b.vote_type := by
  unfold applyMismatch; split <;> rfl

theorem applyMismatch_candidate_id (v : Voter) (b : Ballot) :
    (applyMismatch v b).candidate_id = b.candidate_id := by
  unfold applyMismatch; split <;> rfl

theorem applyMismatch_party_id (v : Voter) (b : Ballot) :
    (applyMismatch v b).party_id = b.party_id := by
  unfold applyMismatch; split <;> rfl

theorem applyMismatch_const_id (v : Voter) (b : Ballot) :
    (applyMismatch v b).const_id = b.const_id := by
  unfold applyMismatch; split <;> rfl

theorem applyMismatch_voter_id (v : Voter) (b : Ballot) :
    (applyMismatch v b).voter_id = b.voter_id := by
  unfold applyMismatch; split <;> rfl

theorem constGoodness_applyMismatch (s : Store) (v : Voter) (b : Ballot) :
    constGoodness s (applyMismatch v b) = constGoodness s b := by
  unfold applyMismatch; split <;> rfl

theorem partyGoodness_applyMismatch (s : Store) (v : Voter) (b : Ballot) :
    partyGoodness s (applyMismatch v b) = partyGoodness s b := by
  unfold applyMismatch; split <;> rfl

theorem getVoterL_id {l : List Voter} {i : Nat} {v : Voter}
    (h : getVoterL l i = some v) : v.voter_id = i := by
  have := List.find?_some h
  simpa using this

theorem getVoterL_replace (l : List Voter) (v2 : Voter) (i : Nat) :
    getVoterL (replaceVoter l v2) i =
      (getVoterL l i).map (fun w => if w.voter_id = v2.voter_id then v2 else w) := by
  unfold getVoterL replaceVoter
  rw [List.find?_map]
  have hp : ((fun v => v.voter_id == i) ∘ fun w => if w.voter_id = v2.voter_id then v2 else w)
      = (fun v : Voter => v.voter_id == i) := by
    funext w
    by_cases hw : w.voter_id = v2.voter_id
    · simp [Function.comp, hw]
    · simp [Function.comp, hw]
  rw [hp]

theorem getVoterL_append (l1 l2 : List Voter) (i : Nat) :
    getVoterL (l1 ++ l2) i = (getVoterL l1 i).or (getVoterL l2 i) :=
  List.find?_append

theorem replaceVoter_ids (l : List Voter) (v2 : Voter) :
    (replaceVoter l v2).map (fun v => v.voter_id) = l.map (fun v => v.voter_id) := by
  unfold replaceVoter
  rw [List.map_map]
  apply List.map_congr_left
  intro w _
  by_cases hw : w.voter_id = v2.voter_id
  · simp [Function.comp, hw]
  · simp [Function.comp, hw]

theorem replaceVoter_length (l : List Voter) (v2 : Voter) :
    (replaceVoter l v2).length = l.length := by
  unfold replaceVoter; exact List.length_map _ _

/-! ### Branch characterization of `create_ballot` -/

theorem create_ballot_notFound {s : Store} {b : Ballot}
    (hv : getVoter s b.voter_id = none) :
    create_ballot s b = Except.error BallotError.voterNotFound := by
  unfold create_ballot
  rw [hv]

theorem create_ballot_unknown {s : Store} {b : Ballot} {voter : Voter}
    (hv : getVoter s b.voter_id = some voter)
    (h1 : b.vote_type ≠ "Constituency") (h2 : b.vote_type ≠ "PartyList") :
    create_ballot s b =
      Except.ok (persistStore s { applyMismatch voter b with is_valid := false },
                 persistRecord s { applyMismatch voter b with is_valid := false }) := by
  unfold create_ballot
  rw [hv]
  dsimp only
  rw [if_pos (by simp [applyMismatch_vote_type, h1, h2])]

theorem create_ballot_const_dup {s : Store} {b : Ballot} {voter : Voter}
    (hv : getVoter s b.voter_id = some voter)
    (ht : b.vote_type = "Constituency") (hf : voter.has_voted_const ≠ 0) :
    create_ballot s b = Except.error BallotError.alreadyVotedConstituency := by
  unfold create_ballot
  rw [hv]
  dsimp only
  rw [if_neg (by simp [applyMismatch_vote_type, ht]),
      if_pos (by simp [applyMismatch_vote_type, ht]), if_pos hf]

theorem create_ballot_const_go {s : Store} {b : Ballot} {voter : Voter}
    (hv : getVoter s b.voter_id = some voter)
    (ht : b.vote_type = "Constituency") (hf : voter.has_voted_const = 0) :
    create_ballot s b = acceptConstituency s voter (applyMismatch voter b) := by
  unfold create_ballot
  rw [hv]
  dsimp only
  rw [if_neg (by simp [applyMismatch_vote_type, ht]),
      if_pos (by simp [applyMismatch_vote_type, ht]), if_neg (by simp [hf])]

theorem create_ballot_list_dup {s : Store} {b : Ballot} {voter : Voter}
    (hv : getVoter s b.voter_id = some voter)
    (ht : b.vote_type = "PartyList") (hf : voter.has_voted_list ≠ 0) :
    create_ballot s b = Except.error BallotError.alreadyVotedPartyList := by
  unfold create_ballot
  rw [hv]
  dsimp only
  rw [if_neg (by simp [applyMismatch_vote_type, ht]),
      if_neg (by simp [applyMismatch_vote_type, ht]), if_pos hf]

theorem create_ballot_list_go {s : Store} {b : Ballot} {voter : Voter}
    (hv : getVoter s b.voter_id = some voter)
    (ht : b.vote_type = "PartyList") (hf : voter.has_voted_list = 0) :
    create_ballot s b = acceptPartyList s voter (applyMismatch voter b) := by
  unfold create_ballot
  rw [hv]
  dsimp only
  rw [if_neg (by simp [applyMismatch_vote_type, ht]),
      if_neg (by simp [applyMismatch_vote_type, ht]), if_neg (by simp [hf])]

/-! ### The goodness predicates, unfolded -/

theorem constGoodness_iff (s : Store) (b : Ballot) :
    constGoodness s b = true ↔
      ∃ cid cand, b.candidate_id = some cid ∧ b.party_id = none ∧
        getCandidate s cid = some cand ∧ cand.const_id = b.const_id := by
  unfold constGoodness
  cases hc : b.candidate_id with
  | none => simp
  | some cid =>
    cases hp : b.party_id with
    | some pid => simp
    | none =>
      cases hcand : getCandidate s cid with
      | none => simp [hcand]
      | some cand => simp [hcand, beq_iff_eq]

theorem partyGoodness_iff (s : Store) (b : Ballot) :
    partyGoodness s b = true ↔
      ∃ pid p, b.party_id = some pid ∧ b.candidate_id = none ∧
        getParty s pid = some p := by
  unfold partyGoodness
  cases hp : b.party_id with
  | none => simp
  | some pid =>
    cases hc : b.candidate_id with
    | some cid => simp
    | none =>
      cases hparty : getParty s pid with
      | none => simp [hparty]
      | some p => simp [hparty]

theorem constOutcome_is_valid (s : Store) (b1 : Ballot) :
    (constOutcome s b1).is_valid = constGoodness s b1 := by
  unfold constOutcome
  by_cases h : constGoodness s b1 <;> simp [h]

theorem listOutcome_is_valid (s : Store) (b1 : Ballot) :
    (listOutcome s b1).is_valid = partyGoodness s b1 := by
  unfold listOutcome
  by_cases h : partyGoodness s b1 <;> simp [h]

theorem constOutcome_vote_type (s : Store) (b1 : Ballot) :
    (constOutcome s b1).vote_type = b1.vote_type := by
  unfold constOutcome; split <;> rfl

theorem listOutcome_vote_type (s : Store) (b1 : Ballot) :
    (listOutcome s b1).vote_type = b1.vote_type := by
  unfold listOutcome; split <;> rfl

theorem constOutcome_voter_id (s : Store) (b1 : Ballot) :
    (constOutcome s b1).voter_id = b1.voter_id := by
  unfold constOutcome; split <;> rfl

theorem listOutcome_voter_id (s : Store) (b1 : Ballot) :
    (listOutcome s b1).voter_id = b1.voter_id := by
  unfold listOutcome; split <;> rfl

theorem constOutcome_cleared (s : Store) (b1 : Ballot)
    (h : constGoodness s b1 = false) :
    (constOutcome s b1).candidate_id = none ∧ (constOutcome s b1).party_id = none := by
  unfold constOutcome
  simp [h]

theorem listOutcome_cleared (s : Store) (b1 : Ballot)
    (h : partyGoodness s b1 = false) :
    (listOutcome s b1).candidate_id = none ∧ (listOutcome s b1).party_id = none := by
  unfold listOutcome
  simp [h]

theorem updateVoter_ballots (s : Store) (v2 : Voter) :
    (updateVoter s v2).ballots = s.ballots := rfl

theorem updateVoter_voters (s : Store) (v2 : Voter) :
    (updateVoter s v2).voters = replaceVoter s.voters v2 := rfl

theorem persistStore_voters (s : Store) (b : Ballot) :
    (persistStore s b).voters = s.voters := rfl

theorem persistStore_ballots (s : Store) (b : Ballot) :
    (persistStore s b).ballots = s.ballots ++ [persistRecord s b] := rfl

theorem persistRecord_fields (s : Store) (b : Ballot) :
    (persistRecord s b).voter_id = b.voter_id ∧
    (persistRecord s b).vote_type = b.vote_type ∧
    (persistRecord s b).is_valid = b.is_valid ∧
    (persistRecord s b).candidate_id = b.candidate_id ∧
    (persistRecord s b).party_id = b.party_id :=
  ⟨rfl, rfl, rfl, rfl, rfl⟩

/-! ### Claim C6 -/

/-- C6: for every accepted `Constituency`-type ballot (voter exists, not
already voted constituency), the persisted `is_valid` is true iff
`candidate_id` is present, `party_id` is absent, the referenced candidate
exists and that candidate's constituency equals the ballot's
`const_id`. -/
theorem C6_constituency_validity (s : Store) (b : Ballot) (s' : Store) (pb : Ballot)
    (ht : b.vote_type = "Constituency")
    (h : create_ballot s b = Except.ok (s', pb)) :
    pb.is_valid = true ↔
      ∃ cid cand, b.candidate_id = some cid ∧ b.party_id = none ∧
        getCandidate s cid = some cand ∧ cand.const_id = b.const_id := by
  cases hv : getVoter s b.voter_id with
  | none =>
    rw [create_ballot_notFound hv] at h
    exact Except.noConfusion h
  | some voter =>
    by_cases hf : voter.has_voted_const = 0
    · rw [create_ballot_const_go hv ht hf] at h
      unfold acceptConstituency at h
      simp only [Except.ok.injEq, Prod.mk.injEq] at h
      obtain ⟨-, hpb⟩ := h
      have hval : pb.is_valid = constGoodness s b := by
        rw [← hpb]
        show (constOutcome s (applyMismatch voter b)).is_valid = _
        rw [constOutcome_is_valid, constGoodness_applyMismatch]
      rw [hval]
      exact constGoodness_iff s b
    · rw [create_ballot_const_dup hv ht hf] at h
      exact Except.noConfusion h

/-- C6 witness: concrete evaluation of a well-formed `Constituency` vote. -/
theorem C6_witness :
    cb6.vote_type = "Constituency" ∧
    create_ballot baseStore cb6 = Except.ok (c6Res.1, c6Res.2) ∧
    (c6Res.2.is_valid = true ↔
      ∃ cid cand, cb6.candidate_id = some cid ∧ cb6.party_id = none ∧
        getCandidate baseStore cid = some cand ∧ cand.const_id = cb6.const_id) :=
  ⟨rfl, rfl, C6_constituency_validity baseStore cb6 c6Res.1 c6Res.2 rfl rfl⟩

/-! ### Claim C7 -/

/-- C7: for every accepted `PartyList`-type ballot (voter exists, not
already voted party list), the persisted `is_valid` is true iff `party_id`
is present, `candidate_id` is absent and the referenced party exists. -/
theorem C7_partylist_validity (s : Store) (b : Ballot) (s' : Store) (pb : Ballot)
    (ht : b.vote_type = "PartyList")
    (h : create_ballot s b = Except.ok (s', pb)) :
    pb.is_valid = true ↔
      ∃ pid p, b.party_id = some pid ∧ b.candidate_id = none ∧
        getParty s pid = some p := by
  cases hv : getVoter s b.voter_id with
  | none =>
    rw [create_ballot_notFound hv] at h
    exact Except.noConfusion h
  | some voter =>
    by_cases hf : voter.has_voted_list = 0
    · rw [create_ballot_list_go hv ht hf] at h
      unfold acceptPartyList at h
      simp only [Except.ok.injEq, Prod.mk.injEq] at h
      obtain ⟨-, hpb⟩ := h
      have hval : pb.is_valid = partyGoodness s b := by
        rw [← hpb]
        show (listOutcome s (applyMismatch voter b)).is_valid = _
        rw [listOutcome_is_valid, partyGoodness_applyMismatch]
      rw [hval]
      exact partyGoodness_iff s b
    · rw [create_ballot_list_dup hv ht hf] at h
      exact Except.noConfusion h

/-- C7 witness: concrete evaluation of a well-formed `PartyList` vote. -/
theorem C7_witness :
    cb7.vote_type = "PartyList" ∧
    create_ballot baseStore cb7 = Except.ok (c7Res.1, c7Res.2) ∧
    (c7Res.2.is_valid = true ↔
      ∃ pid p, cb7.party_id = some pid ∧ cb7.candidate_id = none ∧
        getParty baseStore pid = some p) :=
  ⟨rfl, rfl, C7_partylist_validity baseStore cb7 c7Res.1 c7Res.2 rfl rfl⟩

/-! ### Claim C5 -/

/-- C5: every admission of a recognized vote type that is not
hard-rejected persists a ballot record and sets the voter's corresponding
participation flag to `1`; and whenever the goodness predicate is false
the persisted record has both linkage columns cleared. -/
theorem C5_always_persist_flag_clear (s : Store) (b : Ballot) (s' : Store) (pb : Ballot)
    (ht : b.vote_type = "Constituency" ∨ b.vote_type = "PartyList")
    (h : create_ballot s b = Except.ok (s', pb)) :
    pb ∈ s'.ballots ∧
    (∃ v', getVoter s' b.voter_id = some v' ∧
       (b.vote_type = "Constituency" → v'.has_voted_const = 1) ∧
       (b.vote_type = "PartyList" → v'.has_voted_list = 1)) ∧
    (goodnessPred s b = false → pb.candidate_id = none ∧ pb.party_id = none) := by
  cases hv : getVoter s b.voter_id with
  | none =>
    rw [create_ballot_notFound hv] at h
    exact Except.noConfusion h
  | some voter =>
    rcases ht with htC | htP
    · by_cases hf : voter.has_voted_const = 0
      · rw [create_ballot_const_go hv htC hf] at h
        unfold acceptConstituency at h
        simp only [Except.ok.injEq, Prod.mk.injEq] at h
        obtain ⟨hs', hpb⟩ := h
        subst hs'
        subst hpb
        refine ⟨?_, ?_, ?_⟩
        · rw [updateVoter_ballots, persistStore_ballots]
          exact List.mem_append_right _ (List.mem_singleton_self _)
        · refine ⟨{ voter with has_voted_const := 1 }, ?_, fun _ => rfl, ?_⟩
          · show getVoterL (replaceVoter s.voters { voter with has_voted_const := 1 })
              b.voter_id = _
            rw [getVoterL_replace]
            have hvx : getVoterL s.voters b.voter_id = some voter := hv
            rw [hvx]
            simp
          · intro hx
            rw [htC] at hx
            exact absurd hx (by decide)
        · intro hg
          have hg' : constGoodness s (applyMismatch voter b) = false := by
            rw [constGoodness_applyMismatch]
            unfold goodnessPred at hg
            rw [if_pos htC] at hg
            exact hg
          exact constOutcome_cleared s (applyMismatch voter b) hg'
      · rw [create_ballot_const_dup hv htC hf] at h
        exact Except.noConfusion h
    · by_cases hf : voter.has_voted_list = 0
      · rw [create_ballot_list_go hv htP hf] at h
        unfold acceptPartyList at h
        simp only [Except.ok.injEq, Prod.mk.injEq] at h
        obtain ⟨hs', hpb⟩ := h
        subst hs'
        subst hpb
        refine ⟨?_, ?_, ?_⟩
        · rw [updateVoter_ballots, persistStore_ballots]
          exact List.mem_append_right _ (List.mem_singleton_self _)
        · refine ⟨{ voter with has_voted_list := 1 }, ?_, ?_, fun _ => rfl⟩
          · show getVoterL (replaceVoter s.voters { voter with has_voted_list := 1 })
              b.voter_id = _
            rw [getVoterL_replace]
            have hvx : getVoterL s.voters b.voter_id = some voter := hv
            rw [hvx]
            simp
          · intro hx
            rw [htP] at hx
            exact absurd hx (by decide)
        · intro hg
          have hg' : partyGoodness s (applyMismatch voter b) = false := by
            rw [partyGoodness_applyMismatch]
            unfold goodnessPred at hg
            rw [if_neg (by rw [htP]; decide)] at hg
            exact hg
          exact listOutcome_cleared s (applyMismatch voter b) hg'
      · rw [create_ballot_list_dup hv htP hf] at h
        exact Except.noConfusion h

/-- C5 witness: a `PartyList` submission with both linkage columns set is
persisted spoiled with both columns cleared, and the flag is consumed. -/
theorem C5_witness :
    (cb5.vote_type = "Constituency" ∨ cb5.vote_type = "PartyList") ∧
    create_ballot baseStore cb5 = Except.ok (c5Res.1, c5Res.2) ∧
    goodnessPred baseStore cb5 = false ∧
    (c5Res.2 ∈ c5Res.1.ballots ∧
     (∃ v', getVoter c5Res.1 cb5.voter_id = some v' ∧
        (cb5.vote_type = "Constituency" → v'.has_voted_const = 1) ∧
        (cb5.vote_type = "PartyList" → v'.has_voted_list = 1)) ∧
     (goodnessPred baseStore cb5 = false →
        c5Res.2.candidate_id = none ∧ c5Res.2.party_id = none)) :=
  ⟨Or.inr rfl, rfl, by decide,
   C5_always_persist_flag_clear baseStore cb5 c5Res.1 c5Res.2 (Or.inr rfl) rfl⟩

/-! ### Claim C2 -/

/-- C2 fails on the code: an unrecognized vote type is persisted spoiled,
but the linkage columns are NOT cleared — the submitted `candidate_id` and
`party_id` survive on the persisted record (`main.py:182-188` never clears
them). -/
theorem C2_counterexample :
    (create_ballot baseStore cb2).map
        (fun r => (r.2.is_valid, r.2.candidate_id, r.2.party_id))
      = Except.ok (false, some 0, some 0) ∧
    (some 0 : Option Nat) ≠ none :=
  ⟨rfl, by decide⟩

/-- C2 (amended): an unrecognized-vote-type submission by an existing
voter is persisted with `is_valid = false` and no voter row is touched,
but the persisted record keeps `candidate_id` and `party_id` exactly as
submitted (they are not cleared). -/
theorem C2_unknown_type (s : Store) (b : Ballot) (v : Voter)
    (hv : getVoter s b.voter_id = some v)
    (h1 : b.vote_type ≠ "Constituency") (h2 : b.vote_type ≠ "PartyList") :
    ∃ s' pb, create_ballot s b = Except.ok (s', pb) ∧
      pb.is_valid = false ∧
      pb.candidate_id = b.candidate_id ∧ pb.party_id = b.party_id ∧
      pb ∈ s'.ballots ∧ s'.voters = s.voters := by
  refine ⟨_, _, create_ballot_unknown hv h1 h2, rfl, ?_, ?_, ?_, rfl⟩
  · exact applyMismatch_candidate_id v b
  · exact applyMismatch_party_id v b
  · rw [persistStore_ballots]
    exact List.mem_append_right _ (List.mem_singleton_self _)

/-- C2 witness: concrete run of the amended claim on a `Referendum`
submission. -/
theorem C2_witness :
    getVoter baseStore cb2.voter_id = some ⟨0, "1111", "Voter One", 0, 0, 0⟩ ∧
    cb2.vote_type ≠ "Constituency" ∧ cb2.vote_type ≠ "PartyList" ∧
    (∃ s' pb, create_ballot baseStore cb2 = Except.ok (s', pb) ∧
      pb.is_valid = false ∧
      pb.candidate_id = cb2.candidate_id ∧ pb.party_id = cb2.party_id ∧
      pb ∈ s'.ballots ∧ s'.voters = baseStore.voters) :=
  ⟨rfl, by decide, by decide,
   C2_unknown_type baseStore cb2 ⟨0, "1111", "Voter One", 0, 0, 0⟩ rfl
     (by decide) (by decide)⟩

/-! ### Claim C8 -/

theorem step_createBallot (s : Store) (b : Ballot) :
    step s (Op.createBallot b) =
      match create_ballot s b with
      | Except.ok (s', _) => s'
      | Except.error _ => s := rfl

/-- C8: a submission whose voter does not exist, or whose voter already
holds the flag of the submitted recognized vote type, is rejected with a
distinguishable reason, persists nothing and mutates nothing. -/
theorem C8_hard_rejections (s : Store) (b : Ballot) :
    (getVoter s b.voter_id = none →
       create_ballot s b = Except.error BallotError.voterNotFound ∧
       step s (Op.createBallot b) = s) ∧
    (∀ v, getVoter s b.voter_id = some v →
       (b.vote_type = "Constituency" → v.has_voted_const ≠ 0 →
          create_ballot s b = Except.error BallotError.alreadyVotedConstituency ∧
          step s (Op.createBallot b) = s) ∧
       (b.vote_type = "PartyList" → v.has_voted_list ≠ 0 →
          create_ballot s b = Except.error BallotError.alreadyVotedPartyList ∧
          step s (Op.createBallot b) = s)) ∧
    BallotError.alreadyVotedConstituency ≠ BallotError.voterNotFound ∧
    BallotError.alreadyVotedPartyList ≠ BallotError.voterNotFound := by
  refine ⟨?_, ?_, by decide, by decide⟩
  · intro hv
    have he := create_ballot_notFound hv
    refine ⟨he, ?_⟩
    rw [step_createBallot, he]
  · intro v hv
    constructor
    · intro ht hf
      have he := create_ballot_const_dup hv ht hf
      refine ⟨he, ?_⟩
      rw [step_createBallot, he]
    · intro ht hf
      have he := create_ballot_list_dup hv ht hf
      refine ⟨he, ?_⟩
      rw [step_createBallot, he]

/-- C8 witness: a nonexistent voter and a voter whose constituency flag is
already set, both rejected with their distinct reasons. -/
theorem C8_witness :
    getVoter baseStore cb8a.voter_id = none ∧
    create_ballot baseStore cb8a = Except.error BallotError.voterNotFound ∧
    getVoter baseStore cb8b.voter_id = some ⟨1, "2222", "Voter Two", 0, 1, 1⟩ ∧
    create_ballot baseStore cb8b = Except.error BallotError.alreadyVotedConstituency :=
  ⟨rfl, ((C8_hard_rejections baseStore cb8a).1 rfl).1, rfl,
   (((C8_hard_rejections baseStore cb8b).2.1 ⟨1, "2222", "Voter Two", 0, 1, 1⟩ rfl).1
      rfl (by decide)).1⟩

/-! ### Claim C3 -/

/-- C3 is the documented intent (`main.py:177` comment: a vote in the
wrong district is spoiled but stored) but the code drops it: the
`is_valid = False` written at `main.py:179` is unconditionally overwritten
by `is_valid = bool(good)` at `main.py:205` (resp. 228).  Concretely,
voter 0 of home constituency 0 voting in constituency 1 for candidate 1 of
constituency 1 yields a persisted ballot with `is_valid = true`. -/
theorem C3_mismatch_not_spoiled :
    (getVoter baseStore cb3.voter_id).map (fun v => v.const_id) = some 0 ∧
    cb3.const_id = 1 ∧ cb3.vote_type = "Constituency" ∧
    (create_ballot baseStore cb3).map (fun r => r.2.is_valid) = Except.ok true :=
  ⟨rfl, rfl, rfl, rfl⟩

/-! ### Claim C10 -/

theorem render_ballot_candidate_name (s : Store) (b : Ballot) :
    (render_ballot s b).candidate_name =
      if b.is_valid = true ∧ b.vote_type = "Constituency" then
        some ((b.candidate_id.bind (fun cid => getCandidate s cid)).map
          (fun c => c.full_name))
      else none := rfl

theorem render_ballot_party_name (s : Store) (b : Ballot) :
    (render_ballot s b).party_name =
      if b.is_valid = true ∧ b.vote_type = "PartyList" then
        some (match b.party_id.bind (fun pid => getParty s pid) with
          | some p => some p.party_name
          | none =>
            ((b.candidate_id.bind (fun cid => getCandidate s cid)).bind
              (fun c => getParty s c.party_id)).map (fun p => p.party_name))
      else none := rfl

/-- C10: in the `GET /ballots` listing, every spoiled ballot is rendered
with neither name key, and every valid ballot carries exactly the key
matching its vote type — the candidate name for `Constituency`, the party
name for `PartyList`. -/
theorem C10_listing_fields (s : Store) (b : Ballot) (hb : b ∈ s.ballots) :
    render_ballot s b ∈ get_ballots_final s ∧
    (b.is_valid = false →
       (render_ballot s b).candidate_name = none ∧
       (render_ballot s b).party_name = none) ∧
    (b.is_valid = true → b.vote_type = "Constituency" →
       ((render_ballot s b).candidate_name).isSome = true ∧
       (render_ballot s b).party_name = none) ∧
    (b.is_valid = true → b.vote_type = "PartyList" →
       ((render_ballot s b).party_name).isSome = true ∧
       (render_ballot s b).candidate_name = none) := by
  refine ⟨List.mem_map_of_mem _ hb, ?_, ?_, ?_⟩
  · intro hval
    rw [render_ballot_candidate_name, render_ballot_party_name]
    constructor
    · rw [if_neg]
      intro hx
      rw [hval] at hx
      exact absurd hx.1 (by decide)
    · rw [if_neg]
      intro hx
      rw [hval] at hx
      exact absurd hx.1 (by decide)
  · intro hval htype
    rw [render_ballot_candidate_name, render_ballot_party_name]
    constructor
    · rw [if_pos ⟨hval, htype⟩]
      rfl
    · rw [if_neg]
      intro hx
      rw [htype] at hx
      exact absurd hx.2 (by decide)
  · intro hval htype
    rw [render_ballot_candidate_name, render_ballot_party_name]
    constructor
    · rw [if_pos ⟨hval, htype⟩]
      rfl
    · rw [if_neg]
      intro hx
      rw [htype] at hx
      exact absurd hx.2 (by decide)

/-- C10 witness: the valid `Constituency` ballot of `store9` renders with
a candidate-name key only. -/
theorem C10_witness :
    (⟨0, 0, 0, some 0, none, "Constituency", true, 0⟩ : Ballot) ∈ store9.ballots ∧
    render_ballot store9 ⟨0, 0, 0, some 0, none, "Constituency", true, 0⟩
      ∈ get_ballots_final store9 ∧
    ((⟨0, 0, 0, some 0, none, "Constituency", true, 0⟩ : Ballot).is_valid = true →
      (⟨0, 0, 0, some 0, none, "Constituency", true, 0⟩ : Ballot).vote_type = "Constituency" →
      ((render_ballot store9 ⟨0, 0, 0, some 0, none, "Constituency", true, 0⟩).candidate_name).isSome = true ∧
      (render_ballot store9 ⟨0, 0, 0, some 0, none, "Constituency", true, 0⟩).party_name = none) :=
  ⟨by decide,
   (C10_listing_fields store9 ⟨0, 0, 0, some 0, none, "Constituency", true, 0⟩ (by decide)).1,
   (C10_listing_fields store9 ⟨0, 0, 0, some 0, none, "Constituency", true, 0⟩ (by decide)).2.2.1⟩

/-! ### Claim C9 -/

theorem sum_snd_groupCounts {α : Type} [DecidableEq α] (l : List α) :
    ((groupCounts l).map Prod.snd).sum = l.length := by
  unfold groupCounts
  rw [List.map_map]
  exact List.sum_map_count_dedup_eq_length l

theorem length_filterMap_congr {α β γ : Type} (f : α → Option β) (g : α → Option γ)
    (l : List α) (h : ∀ a ∈ l, (f a).isSome = (g a).isSome) :
    (l.filterMap f).length = (l.filterMap g).length := by
  induction l with
  | nil => rfl
  | cons a l ih =>
    have ha := h a (List.mem_cons_self a l)
    have hl := ih (fun x hx => h x (List.mem_cons_of_mem a hx))
    cases hfa : f a with
    | none =>
      cases hga : g a with
      | none => simp [List.filterMap_cons, hfa, hga, hl]
      | some c =>
        rw [hfa, hga] at ha
        exact absurd ha (by simp)
    | some bv =>
      cases hga : g a with
      | none =>
        rw [hfa, hga] at ha
        exact absurd ha (by simp)
      | some c => simp [List.filterMap_cons, hfa, hga, hl]

theorem constRow_isSome_eq (s : Store) (b : Ballot)
    (h : b.vote_type = "Constituency" → b.is_valid = true →
         (getConstituency s b.const_id).isSome = true) :
    (constDistrictRow s b).isSome = (constOverallRow s b).isSome := by
  unfold constDistrictRow constOverallRow
  by_cases hc : b.vote_type = "Constituency" ∧ b.is_valid = true
  · rw [if_pos hc, if_pos hc]
    obtain ⟨hcs, hsome⟩ := Option.isSome_iff_exists.mp (h hc.1 hc.2)
    rw [hsome]
    cases b.candidate_id.bind (fun cid => getCandidate s cid) with
    | none => rfl
    | some cand =>
      dsimp only
      cases getParty s cand.party_id with
      | none => rfl
      | some p => rfl
  · rw [if_neg hc, if_neg hc]
    rfl

/-- C9: the sum of the per-constituency valid `Constituency` vote counts
produced by `GET /results/constituency` equals the total of the overall
valid `Constituency` counts produced by `GET /results/constituency/overall`,
for every store in which valid `Constituency` ballots reference an existing
constituency (which the declared `Ballots.const_id` foreign key and the
admission engine — a ballot is only marked valid when its candidate, whose
constituency was checked at candidate creation, sits in the ballot's
constituency — both guarantee). -/
theorem C9_tally_sum (s : Store)
    (h : ∀ b ∈ s.ballots, b.vote_type = "Constituency" → b.is_valid = true →
         (getConstituency s b.const_id).isSome = true) :
    ((results_constituency_by_district s).map Prod.snd).sum =
      ((results_constituency_overall s).map Prod.snd).sum := by
  unfold results_constituency_by_district results_constituency_overall
  rw [sum_snd_groupCounts, sum_snd_groupCounts]
  exact length_filterMap_congr _ _ _ (fun b hb => constRow_isSome_eq s b (h b hb))

/-- C9 witness: the two tally views of `store9` agree on the total. -/
theorem C9_witness :
    (∀ b ∈ store9.ballots, b.vote_type = "Constituency" → b.is_valid = true →
       (getConstituency store9 b.const_id).isSome = true) ∧
    ((results_constituency_by_district store9).map Prod.snd).sum =
      ((results_constituency_overall store9).map Prod.snd).sum :=
  ⟨by decide, C9_tally_sum store9 (by decide)⟩

/-! ### Claim C1 -/

theorem step_createRegion (s : Store) (r : Region) :
    step s (Op.createRegion r) =
      { s with regions := s.regions ++ [{ r with region_id := s.regions.length }] } := rfl

theorem step_createConstituency (s : Store) (c : Constituency) :
    step s (Op.createConstituency c) =
      if (getRegion s c.region_id).isSome then
        { s with constituencies :=
            s.constituencies ++ [{ c with const_id := s.constituencies.length }] }
      else s := rfl

theorem step_createParty (s : Store) (p : Party) :
    step s (Op.createParty p) =
      { s with parties := s.parties ++ [{ p with party_id := s.parties.length }] } := rfl

theorem step_createCandidate (s : Store) (c : Candidate) :
    step s (Op.createCandidate c) =
      if (getConstituency s c.const_id).isSome ∧ (getParty s c.party_id).isSome then
        { s with candidates :=
            s.candidates ++ [{ c with candidate_id := s.candidates.length }] }
      else s := rfl

theorem step_createVoter (s : Store) (v : Voter) :
    step s (Op.createVoter v) =
      if (getConstituency s v.const_id).isSome then
        { s with voters := s.voters ++ [{ v with voter_id := s.voters.length }] }
      else s := rfl

theorem step_updateVoterStatus (s : Store) (vid : Nat) (hvc hvl : Option Int) :
    step s (Op.updateVoterStatus vid hvc hvl) =
      match update_voter_status s vid hvc hvl with
      | Except.ok (s', _) => s'
      | Except.error _ => s := rfl

/-- C1 fails on the code: `update_voter_status` (the
`PUT /voters/{voter_id}/status` endpoint) can push a participation flag
back from `1` to `0`. -/
theorem C1_counterexample :
    (getVoter baseStore 1).map (fun v => v.has_voted_const) = some 1 ∧
    Op.isStatusUpdate (Op.updateVoterStatus 1 (some 0) none) = true ∧
    (getVoter (step baseStore (Op.updateVoterStatus 1 (some 0) none)) 1).map
        (fun v => v.has_voted_const) = some 0 :=
  ⟨rfl, rfl, rfl⟩

/-- C1 (amended): under every operation except `update_voter_status`, the
participation flags are mutated only by the Ballot Admission Engine
(`POST /ballots`) — every other operation leaves each existing voter row
entirely unchanged — and the engine moves a flag only from `0` to `1`,
never back; the `update_voter_status` endpoint, excluded here, can
overwrite them arbitrarily. -/
theorem C1_flags_monotone (s : Store) (op : Op) (hop : op.isStatusUpdate = false)
    (i : Nat) (v v' : Voter)
    (hv : getVoter s i = some v) (hv' : getVoter (step s op) i = some v') :
    (op.isBallotAdmission = false → v' = v) ∧
    (v'.has_voted_const = v.has_voted_const ∨
       (v.has_voted_const = 0 ∧ v'.has_voted_const = 1)) ∧
    (v'.has_voted_list = v.has_voted_list ∨
       (v.has_voted_list = 0 ∧ v'.has_voted_list = 1)) := by
  cases op with
  | createRegion r =>
    have hv'' : getVoter s i = some v' := hv'
    rw [hv] at hv''
    injection hv'' with h
    subst h
    exact ⟨fun _ => rfl, Or.inl rfl, Or.inl rfl⟩
  | createParty p =>
    have hv'' : getVoter s i = some v' := hv'
    rw [hv] at hv''
    injection hv'' with h
    subst h
    exact ⟨fun _ => rfl, Or.inl rfl, Or.inl rfl⟩
  | createConstituency c =>
    rw [step_createConstituency] at hv'
    have hv'' : getVoter s i = some v' := by
      by_cases hcond : (getRegion s c.region_id).isSome = true
      · rw [if_pos hcond] at hv'; exact hv'
      · rw [if_neg hcond] at hv'; exact hv'
    rw [hv] at hv''
    injection hv'' with h
    subst h
    exact ⟨fun _ => rfl, Or.inl rfl, Or.inl rfl⟩
  | createCandidate c =>
    rw [step_createCandidate] at hv'
    have hv'' : getVoter s i = some v' := by
      by_cases hcond : (getConstituency s c.const_id).isSome = true ∧
          (getParty s c.party_id).isSome = true
      · rw [if_pos hcond] at hv'; exact hv'
      · rw [if_neg hcond] at hv'; exact hv'
    rw [hv] at hv''
    injection hv'' with h
    subst h
    exact ⟨fun _ => rfl, Or.inl rfl, Or.inl rfl⟩
  | createVoter vv =>
    rw [step_createVoter] at hv'
    have hv'' : getVoter s i = some v' := by
      by_cases hcond : (getConstituency s vv.const_id).isSome = true
      · rw [if_pos hcond] at hv'
        have hx : getVoterL (s.voters ++ [{ vv with voter_id := s.voters.length }]) i
            = some v' := hv'
        rw [getVoterL_append, show getVoterL s.voters i = some v from hv,
            Option.or_some] at hx
        exact hv.trans hx
      · rw [if_neg hcond] at hv'; exact hv'
    rw [hv] at hv''
    injection hv'' with h
    subst h
    exact ⟨fun _ => rfl, Or.inl rfl, Or.inl rfl⟩
  | updateVoterStatus vid hvc hvl => exact Bool.noConfusion hop
  | createBallot b =>
    rw [step_createBallot] at hv'
    cases hvb : getVoter s b.voter_id with
    | none =>
      rw [create_ballot_notFound hvb] at hv'
      have hv'' : getVoter s i = some v' := hv'
      rw [hv] at hv''
      injection hv'' with h
      subst h
      exact ⟨fun hx => Bool.noConfusion hx, Or.inl rfl, Or.inl rfl⟩
    | some voter =>
      by_cases hC : b.vote_type = "Constituency"
      · by_cases hf : voter.has_voted_const = 0
        · rw [create_ballot_const_go hvb hC hf] at hv'
          have hx : getVoterL (replaceVoter s.voters { voter with has_voted_const := 1 }) i
              = some v' := hv'
          rw [getVoterL_replace, show getVoterL s.voters i = some v from hv,
              Option.map_some'] at hx
          injection hx with hx
          by_cases hij : v.voter_id = ({ voter with has_voted_const := 1 } : Voter).voter_id
          · rw [if_pos hij] at hx
            subst hx
            have hij' : v.voter_id = voter.voter_id := hij
            have hvv : v = voter := by
              have h1 : getVoterL s.voters i = some v := hv
              have h2 : getVoterL s.voters i = some voter := by
                rw [show i = b.voter_id from by
                  rw [← getVoterL_id h1, hij', getVoterL_id hvb]]
                exact hvb
              rw [h1] at h2
              injection h2 with h2
            refine ⟨fun hx => Bool.noConfusion hx, ?_, ?_⟩
            · right
              exact ⟨by rw [hvv]; exact hf, rfl⟩
            · left
              show ({ voter with has_voted_const := 1 } : Voter).has_voted_list
                  = v.has_voted_list
              rw [hvv]
          · rw [if_neg hij] at hx
            subst hx
            exact ⟨fun hx => Bool.noConfusion hx, Or.inl rfl, Or.inl rfl⟩
        · rw [create_ballot_const_dup hvb hC hf] at hv'
          have hv'' : getVoter s i = some v' := hv'
          rw [hv] at hv''
          injection hv'' with h
          subst h
          exact ⟨fun hx => Bool.noConfusion hx, Or.inl rfl, Or.inl rfl⟩
      · by_cases hP : b.vote_type = "PartyList"
        · by_cases hf : voter.has_voted_list = 0
          · rw [create_ballot_list_go hvb hP hf] at hv'
            have hx : getVoterL (replaceVoter s.voters { voter with has_voted_list := 1 }) i
                = some v' := hv'
            rw [getVoterL_replace, show getVoterL s.voters i = some v from hv,
                Option.map_some'] at hx
            injection hx with hx
            by_cases hij : v.voter_id = ({ voter with has_voted_list := 1 } : Voter).voter_id
            · rw [if_pos hij] at hx
              subst hx
              have hij' : v.voter_id = voter.voter_id := hij
              have hvv : v = voter := by
                have h1 : getVoterL s.voters i = some v := hv
                have h2 : getVoterL s.voters i = some voter := by
                  rw [show i = b.voter_id from by
                    rw [← getVoterL_id h1, hij', getVoterL_id hvb]]
                  exact hvb
                rw [h1] at h2
                injection h2 with h2
              refine ⟨fun hx => Bool.noConfusion hx, ?_, ?_⟩
              · left
                show ({ voter with has_voted_list := 1 } : Voter).has_voted_const
                    = v.has_voted_const
                rw [hvv]
              · right
                exact ⟨by rw [hvv]; exact hf, rfl⟩
            · rw [if_neg hij] at hx
              subst hx
              exact ⟨fun hx => Bool.noConfusion hx, Or.inl rfl, Or.inl rfl⟩
          · rw [create_ballot_list_dup hvb hP hf] at hv'
            have hv'' : getVoter s i = some v' := hv'
            rw [hv] at hv''
            injection hv'' with h
            subst h
            exact ⟨fun hx => Bool.noConfusion hx, Or.inl rfl, Or.inl rfl⟩
        · rw [create_ballot_unknown hvb hC hP] at hv'
          have hv'' : getVoter s i = some v' := hv'
          rw [hv] at hv''
          injection hv'' with h
          subst h
          exact ⟨fun hx => Bool.noConfusion hx, Or.inl rfl, Or.inl rfl⟩

/-- C1 witness: accepting a well-formed `Constituency` ballot flips voter
0's constituency flag from `0` to `1` and leaves the party-list flag,
while a non-admission operation (`POST /parties`) leaves the voter row
unchanged. -/
theorem C1_witness :
    Op.isStatusUpdate (Op.createBallot cb6) = false ∧
    getVoter baseStore 0 = some ⟨0, "1111", "Voter One", 0, 0, 0⟩ ∧
    getVoter (step baseStore (Op.createBallot cb6)) 0
      = some ⟨0, "1111", "Voter One", 0, 1, 0⟩ ∧
    (((⟨0, "1111", "Voter One", 0, 1, 0⟩ : Voter).has_voted_const
        = (⟨0, "1111", "Voter One", 0, 0, 0⟩ : Voter).has_voted_const ∨
      ((⟨0, "1111", "Voter One", 0, 0, 0⟩ : Voter).has_voted_const = 0 ∧
       (⟨0, "1111", "Voter One", 0, 1, 0⟩ : Voter).has_voted_const = 1)) ∧
     ((⟨0, "1111", "Voter One", 0, 1, 0⟩ : Voter).has_voted_list
        = (⟨0, "1111", "Voter One", 0, 0, 0⟩ : Voter).has_voted_list ∨
      ((⟨0, "1111", "Voter One", 0, 0, 0⟩ : Voter).has_voted_list = 0 ∧
       (⟨0, "1111", "Voter One", 0, 1, 0⟩ : Voter).has_voted_list = 1))) ∧
    Op.isStatusUpdate (Op.createParty ⟨5, "Party B", none, none⟩) = false ∧
    Op.isBallotAdmission (Op.createParty ⟨5, "Party B", none, none⟩) = false ∧
    getVoter (step baseStore (Op.createParty ⟨5, "Party B", none, none⟩)) 0
      = some ⟨0, "1111", "Voter One", 0, 0, 0⟩ ∧
    (⟨0, "1111", "Voter One", 0, 0, 0⟩ : Voter) = ⟨0, "1111", "Voter One", 0, 0, 0⟩ :=
  ⟨rfl, rfl, rfl,
   (C1_flags_monotone baseStore (Op.createBallot cb6) rfl 0
     ⟨0, "1111", "Voter One", 0, 0, 0⟩ ⟨0, "1111", "Voter One", 0, 1, 0⟩ rfl rfl).2,
   rfl, rfl, rfl,
   (C1_flags_monotone baseStore (Op.createParty ⟨5, "Party B", none, none⟩) rfl 0
     ⟨0, "1111", "Voter One", 0, 0, 0⟩ ⟨0, "1111", "Voter One", 0, 0, 0⟩ rfl rfl).1 rfl⟩

/-! ### Counting persisted ballots -/

theorem countTypeL_append (l1 l2 : List Ballot) (i : Nat) (t : String) :
    countTypeL (l1 ++ l2) i t = countTypeL l1 i t + countTypeL l2 i t := by
  unfold countTypeL
  rw [List.filter_append, List.length_append]

theorem countTypeL_single (b : Ballot) (i : Nat) (t : String) :
    countTypeL [b] i t = if b.voter_id = i ∧ b.vote_type = t then 1 else 0 := by
  unfold countTypeL
  by_cases h : b.voter_id = i ∧ b.vote_type = t
  · rw [if_pos h]
    have hb : (b.voter_id == i && b.vote_type == t) = true := by
      simp [h.1, h.2]
    simp [List.filter_cons, hb]
  · rw [if_neg h]
    have hb : (b.voter_id == i && b.vote_type == t) = false := by
      rcases not_and_or.mp h with h1 | h1 <;> simp [h1]
    simp [List.filter_cons, hb]

theorem countTypeL_eq_zero (l : List Ballot) (i : Nat) (t : String)
    (h : ∀ b ∈ l, b.voter_id ≠ i) : countTypeL l i t = 0 := by
  unfold countTypeL
  rw [List.length_eq_zero, List.filter_eq_nil_iff]
  intro b hb
  simp [h b hb]

theorem getVoterL_lt {l : List Voter} {i : Nat} {v : Voter}
    (hids : l.map (fun v => v.voter_id) = List.range l.length)
    (h : getVoterL l i = some v) : i < l.length := by
  have hmem := List.mem_of_find?_eq_some h
  have hin : i ∈ l.map (fun v => v.voter_id) :=
    List.mem_map.mpr ⟨v, hmem, getVoterL_id h⟩
  rw [hids] at hin
  exact List.mem_range.mp hin

/-! ### Preservation of the ledger invariant -/

theorem LedgerInv_persist_other (s : Store) (b2 : Ballot) (h : LedgerInv s)
    (href : b2.voter_id < s.voters.length)
    (hC : b2.vote_type ≠ "Constituency") (hP : b2.vote_type ≠ "PartyList") :
    LedgerInv (persistStore s b2) := by
  obtain ⟨h1, h2, h3⟩ := h
  refine ⟨h1, ?_, ?_⟩
  · intro bb hbb
    have hbb' : bb ∈ s.ballots ++ [persistRecord s b2] := hbb
    rcases List.mem_append.mp hbb' with hL | hR
    · exact h2 bb hL
    · rw [List.mem_singleton] at hR
      subst hR
      exact href
  · intro i v hv
    have hv' : getVoterL s.voters i = some v := hv
    have hcount : ∀ t, t = "Constituency" ∨ t = "PartyList" →
        countType (persistStore s b2) i t = countType s i t := by
      intro t htt
      show countTypeL (s.ballots ++ [persistRecord s b2]) i t = countTypeL s.ballots i t
      rw [countTypeL_append, countTypeL_single]
      rw [if_neg]
      · omega
      · intro hx
        rcases htt with rfl | rfl
        · exact hC hx.2
        · exact hP hx.2
    refine ⟨⟨?_, ?_⟩, ?_, ?_⟩
    · rw [hcount "Constituency" (Or.inl rfl)]
      exact (h3 i v hv').1.1
    · intro h0
      rw [hcount "Constituency" (Or.inl rfl)]
      exact (h3 i v hv').1.2 h0
    · rw [hcount "PartyList" (Or.inr rfl)]
      exact (h3 i v hv').2.1
    · intro h0
      rw [hcount "PartyList" (Or.inr rfl)]
      exact (h3 i v hv').2.2 h0

theorem LedgerInv_persist_const (s : Store) (b2 : Ballot) (voter : Voter)
    (h : LedgerInv s)
    (hvb : getVoter s b2.voter_id = some voter)
    (ht : b2.vote_type = "Constituency")
    (hf : voter.has_voted_const = 0) :
    LedgerInv (updateVoter (persistStore s b2) { voter with has_voted_const := 1 }) := by
  obtain ⟨h1, h2, h3⟩ := h
  have hjlt : b2.voter_id < s.voters.length := getVoterL_lt h1 hvb
  have hvj : voter.voter_id = b2.voter_id := getVoterL_id hvb
  have hcount : ∀ i t,
      countType (updateVoter (persistStore s b2) { voter with has_voted_const := 1 }) i t
        = countType s i t + (if b2.voter_id = i ∧ b2.vote_type = t then 1 else 0) := by
    intro i t
    show countTypeL (s.ballots ++ [persistRecord s b2]) i t = _
    rw [countTypeL_append, countTypeL_single]
    rfl
  refine ⟨?_, ?_, ?_⟩
  · show (replaceVoter s.voters { voter with has_voted_const := 1 }).map (fun v => v.voter_id)
      = List.range (replaceVoter s.voters { voter with has_voted_const := 1 }).length
    rw [replaceVoter_ids, replaceVoter_length]
    exact h1
  · intro bb hbb
    have hbb' : bb ∈ s.ballots ++ [persistRecord s b2] := hbb
    show bb.voter_id < (replaceVoter s.voters { voter with has_voted_const := 1 }).length
    rw [replaceVoter_length]
    rcases List.mem_append.mp hbb' with hL | hR
    · exact h2 bb hL
    · rw [List.mem_singleton] at hR
      subst hR
      exact hjlt
  · intro i v hv
    have hv' : getVoterL (replaceVoter s.voters { voter with has_voted_const := 1 }) i
        = some v := hv
    rw [getVoterL_replace] at hv'
    cases hgl : getVoterL s.voters i with
    | none =>
      rw [hgl] at hv'
      exact Option.noConfusion hv'
    | some w =>
      rw [hgl, Option.map_some'] at hv'
      have hv2 : (if w.voter_id = ({ voter with has_voted_const := 1 } : Voter).voter_id
          then ({ voter with has_voted_const := 1 } : Voter) else w) = v :=
        Option.some_injective _ hv'
      by_cases hij : i = b2.voter_id
      · have hw : w = voter := by
          rw [hij] at hgl
          rw [show getVoterL s.voters b2.voter_id = some voter from hvb] at hgl
          exact (Option.some_injective _ hgl).symm
        rw [hw, if_pos rfl] at hv2
        have hvsi : getVoter s i = some voter := by
          rw [hij]
          exact hvb
        have hz : countType s i "Constituency" = 0 := (h3 i voter hvsi).1.2 hf
        subst hv2
        refine ⟨⟨?_, ?_⟩, ?_, ?_⟩
        · rw [hcount i "Constituency", hz, if_pos ⟨hij.symm, ht⟩]
        · intro h0
          have h0' : (1 : Int) = 0 := h0
          exact absurd h0' (by decide)
        · rw [hcount i "PartyList", if_neg]
          · have := (h3 i voter hvsi).2.1
            omega
          · intro hx
            rw [ht] at hx
            exact absurd hx.2 (by decide)
        · intro h0
          rw [hcount i "PartyList", if_neg]
          · have := (h3 i voter hvsi).2.2 h0
            omega
          · intro hx
            rw [ht] at hx
            exact absurd hx.2 (by decide)
      · have hwv : w.voter_id ≠ ({ voter with has_voted_const := 1 } : Voter).voter_id := by
          have hwi : w.voter_id = i := getVoterL_id hgl
          rw [hwi]
          intro hx
          exact hij (hx.trans hvj)
        rw [if_neg hwv] at hv2
        subst hv2
        have hcnt0 : ∀ t, (if b2.voter_id = i ∧ b2.vote_type = t then 1 else 0) = 0 := by
          intro t
          rw [if_neg]
          intro hx
          exact hij hx.1.symm
        have hrec := h3 i w hgl
        refine ⟨⟨?_, ?_⟩, ?_, ?_⟩
        · rw [hcount i "Constituency", hcnt0]
          have := hrec.1.1
          omega
        · intro h0
          rw [hcount i "Constituency", hcnt0]
          have := hrec.1.2 h0
          omega
        · rw [hcount i "PartyList", hcnt0]
          have := hrec.2.1
          omega
        · intro h0
          rw [hcount i "PartyList", hcnt0]
          have := hrec.2.2 h0
          omega

theorem LedgerInv_persist_list (s : Store) (b2 : Ballot) (voter : Voter)
    (h : LedgerInv s)
    (hvb : getVoter s b2.voter_id = some voter)
    (ht : b2.vote_type = "PartyList")
    (hf : voter.has_voted_list = 0) :
    LedgerInv (updateVoter (persistStore s b2) { voter with has_voted_list := 1 }) := by
  obtain ⟨h1, h2, h3⟩ := h
  have hjlt : b2.voter_id < s.voters.length := getVoterL_lt h1 hvb
  have hvj : voter.voter_id = b2.voter_id := getVoterL_id hvb
  have hcount : ∀ i t,
      countType (updateVoter (persistStore s b2) { voter with has_voted_list := 1 }) i t
        = countType s i t + (if b2.voter_id = i ∧ b2.vote_type = t then 1 else 0) := by
    intro i t
    show countTypeL (s.ballots ++ [persistRecord s b2]) i t = _
    rw [countTypeL_append, countTypeL_single]
    rfl
  refine ⟨?_, ?_, ?_⟩
  · show (replaceVoter s.voters { voter with has_voted_list := 1 }).map (fun v => v.voter_id)
      = List.range (replaceVoter s.voters { voter with has_voted_list := 1 }).length
    rw [replaceVoter_ids, replaceVoter_length]
    exact h1
  · intro bb hbb
    have hbb' : bb ∈ s.ballots ++ [persistRecord s b2] := hbb
    show bb.voter_id < (replaceVoter s.voters { voter with has_voted_list := 1 }).length
    rw [replaceVoter_length]
    rcases List.mem_append.mp hbb' with hL | hR
    · exact h2 bb hL
    · rw [List.mem_singleton] at hR
      subst hR
      exact hjlt
  · intro i v hv
    have hv' : getVoterL (replaceVoter s.voters { voter with has_voted_list := 1 }) i
        = some v := hv
    rw [getVoterL_replace] at hv'
    cases hgl : getVoterL s.voters i with
    | none =>
      rw [hgl] at hv'
      exact Option.noConfusion hv'
    | some w =>
      rw [hgl, Option.map_some'] at hv'
      have hv2 : (if w.voter_id = ({ voter with has_voted_list := 1 } : Voter).voter_id
          then ({ voter with has_voted_list := 1 } : Voter) else w) = v :=
        Option.some_injective _ hv'
      by_cases hij : i = b2.voter_id
      · have hw : w = voter := by
          rw [hij] at hgl
          rw [show getVoterL s.voters b2.voter_id = some voter from hvb] at hgl
          exact (Option.some_injective _ hgl).symm
        rw [hw, if_pos rfl] at hv2
        have hvsi : getVoter s i = some voter := by
          rw [hij]
          exact hvb
        have hz : countType s i "PartyList" = 0 := (h3 i voter hvsi).2.2 hf
        subst hv2
        refine ⟨⟨?_, ?_⟩, ?_, ?_⟩
        · rw [hcount i "Constituency", if_neg]
          · have := (h3 i voter hvsi).1.1
            omega
          · intro hx
            rw [ht] at hx
            exact absurd hx.2 (by decide)
        · intro h0
          rw [hcount i "Constituency", if_neg]
          · have := (h3 i voter hvsi).1.2 h0
            omega
          · intro hx
            rw [ht] at hx
            exact absurd hx.2 (by decide)
        · rw [hcount i "PartyList", hz, if_pos ⟨hij.symm, ht⟩]
        · intro h0
          have h0' : (1 : Int) = 0 := h0
          exact absurd h0' (by decide)
      · have hwv : w.voter_id ≠ ({ voter with has_voted_list := 1 } : Voter).voter_id := by
          have hwi : w.voter_id = i := getVoterL_id hgl
          rw [hwi]
          intro hx
          exact hij (hx.trans hvj)
        rw [if_neg hwv] at hv2
        subst hv2
        have hcnt0 : ∀ t, (if b2.voter_id = i ∧ b2.vote_type = t then 1 else 0) = 0 := by
          intro t
          rw [if_neg]
          intro hx
          exact hij hx.1.symm
        have hrec := h3 i w hgl
        refine ⟨⟨?_, ?_⟩, ?_, ?_⟩
        · rw [hcount i "Constituency", hcnt0]
          have := hrec.1.1
          omega
        · intro h0
          rw [hcount i "Constituency", hcnt0]
          have := hrec.1.2 h0
          omega
        · rw [hcount i "PartyList", hcnt0]
          have := hrec.2.1
          omega
        · intro h0
          rw [hcount i "PartyList", hcnt0]
          have := hrec.2.2 h0
          omega

theorem LedgerInv_step (s : Store) (op : Op) (hop : op.isStatusUpdate = false)
    (h : LedgerInv s) : LedgerInv (step s op) := by
  obtain ⟨h1, h2, h3⟩ := h
  cases op with
  | createRegion r => exact ⟨h1, h2, h3⟩
  | createParty p => exact ⟨h1, h2, h3⟩
  | createConstituency c =>
    rw [step_createConstituency]
    by_cases hcond : (getRegion s c.region_id).isSome = true
    · rw [if_pos hcond]
      exact ⟨h1, h2, h3⟩
    · rw [if_neg hcond]
      exact ⟨h1, h2, h3⟩
  | createCandidate c =>
    rw [step_createCandidate]
    by_cases hcond : (getConstituency s c.const_id).isSome = true ∧
        (getParty s c.party_id).isSome = true
    · rw [if_pos hcond]
      exact ⟨h1, h2, h3⟩
    · rw [if_neg hcond]
      exact ⟨h1, h2, h3⟩
  | createVoter vv =>
    rw [step_createVoter]
    by_cases hcond : (getConstituency s vv.const_id).isSome = true
    case neg =>
      rw [if_neg hcond]
      exact ⟨h1, h2, h3⟩
    case pos =>
    rw [if_pos hcond]
    refine ⟨?_, ?_, ?_⟩
    · show (s.voters ++ [({ vv with voter_id := s.voters.length } : Voter)]).map
          (fun v => v.voter_id)
        = List.range (s.voters ++ [({ vv with voter_id := s.voters.length } : Voter)]).length
      rw [List.map_append, h1, List.length_append]
      show List.range s.voters.length ++ [s.voters.length]
        = List.range (s.voters.length + 1)
      rw [List.range_succ]
    · intro bb hbb
      show bb.voter_id < (s.voters ++ [({ vv with voter_id := s.voters.length } : Voter)]).length
      rw [List.length_append]
      have := h2 bb hbb
      show bb.voter_id < s.voters.length + 1
      omega
    · intro i v hv
      have hgv : getVoterL (s.voters ++ [({ vv with voter_id := s.voters.length } : Voter)]) i
          = some v := hv
      rw [getVoterL_append] at hgv
      cases hgl : getVoterL s.voters i with
      | some w =>
        rw [hgl, Option.or_some] at hgv
        have hvw : w = v := Option.some_injective _ hgv
        subst hvw
        exact h3 i w hgl
      | none =>
        rw [hgl, Option.none_or] at hgv
        have hvv' : v = { vv with voter_id := s.voters.length } :=
          List.mem_singleton.mp (List.mem_of_find?_eq_some hgv)
        have hvi : v.voter_id = i := getVoterL_id hgv
        have hin : i = s.voters.length := by
          rw [hvv'] at hvi
          exact hvi.symm
        have hz : ∀ t, countType s i t = 0 := by
          intro t
          apply countTypeL_eq_zero
          intro bb hbb
          have := h2 bb hbb
          omega
        have hcounts : ∀ t,
            countType { s with voters :=
              s.voters ++ [{ vv with voter_id := s.voters.length }] } i t
              = countType s i t := fun t => rfl
        refine ⟨⟨?_, fun _ => ?_⟩, ?_, fun _ => ?_⟩
        · rw [hcounts "Constituency", hz "Constituency"]
          omega
        · rw [hcounts "Constituency", hz "Constituency"]
        · rw [hcounts "PartyList", hz "PartyList"]
          omega
        · rw [hcounts "PartyList", hz "PartyList"]
  | updateVoterStatus vid hvc hvl => exact Bool.noConfusion hop
  | createBallot b =>
    rw [step_createBallot]
    cases hvb : getVoter s b.voter_id with
    | none =>
      rw [create_ballot_notFound hvb]
      exact ⟨h1, h2, h3⟩
    | some voter =>
      by_cases hC : b.vote_type = "Constituency"
      · by_cases hf : voter.has_voted_const = 0
        · rw [create_ballot_const_go hvb hC hf]
          show LedgerInv (updateVoter
            (persistStore s (constOutcome s (applyMismatch voter b)))
            { voter with has_voted_const := 1 })
          apply LedgerInv_persist_const s _ voter ⟨h1, h2, h3⟩
          · rw [constOutcome_voter_id, applyMismatch_voter_id]
            exact hvb
          · rw [constOutcome_vote_type, applyMismatch_vote_type]
            exact hC
          · exact hf
        · rw [create_ballot_const_dup hvb hC hf]
          exact ⟨h1, h2, h3⟩
      · by_cases hP : b.vote_type = "PartyList"
        · by_cases hf : voter.has_voted_list = 0
          · rw [create_ballot_list_go hvb hP hf]
            show LedgerInv (updateVoter
              (persistStore s (listOutcome s (applyMismatch voter b)))
              { voter with has_voted_list := 1 })
            apply LedgerInv_persist_list s _ voter ⟨h1, h2, h3⟩
            · rw [listOutcome_voter_id, applyMismatch_voter_id]
              exact hvb
            · rw [listOutcome_vote_type, applyMismatch_vote_type]
              exact hP
            · exact hf
          · rw [create_ballot_list_dup hvb hP hf]
            exact ⟨h1, h2, h3⟩
        · rw [create_ballot_unknown hvb hC hP]
          show LedgerInv (persistStore s { applyMismatch voter b with is_valid := false })
          apply LedgerInv_persist_other s _ ⟨h1, h2, h3⟩
          · rw [show ({ applyMismatch voter b with is_valid := false } : Ballot).voter_id
                = (applyMismatch voter b).voter_id from rfl, applyMismatch_voter_id]
            exact getVoterL_lt h1 hvb
          · rw [show ({ applyMismatch voter b with is_valid := false } : Ballot).vote_type
                = (applyMismatch voter b).vote_type from rfl, applyMismatch_vote_type]
            exact hC
          · rw [show ({ applyMismatch voter b with is_valid := false } : Ballot).vote_type
                = (applyMismatch voter b).vote_type from rfl, applyMismatch_vote_type]
            exact hP

theorem LedgerInv_empty : LedgerInv emptyStore := by
  refine ⟨rfl, ?_, ?_⟩
  · intro b hb
    exact absurd hb (List.not_mem_nil b)
  · intro i v hv
    exact Option.noConfusion hv

theorem LedgerInv_run (ops : List Op)
    (hops : ∀ op ∈ ops, op.isStatusUpdate = false) : LedgerInv (runOps ops) := by
  suffices hgen : ∀ (l : List Op) (s : Store),
      (∀ op ∈ l, op.isStatusUpdate = false) → LedgerInv s → LedgerInv (l.foldl step s) by
    exact hgen ops emptyStore hops LedgerInv_empty
  intro l
  induction l with
  | nil =>
    intro s _ hs
    exact hs
  | cons op rest ih =>
    intro s hl hs
    exact ih (step s op) (fun x hx => hl x (List.mem_cons_of_mem op hx))
      (LedgerInv_step s op (hl op (List.mem_cons_self op rest)) hs)

/-! ### Claim C4 -/

/-- C4 fails on the code: `update_voter_status` can reset the flag that
guards the duplicate check, after which a second `Constituency` ballot for
the same voter is persisted.  The run `c4Ops` leaves voter 0 with two
persisted `Constituency` ballots. -/
theorem C4_counterexample :
    Op.isStatusUpdate (Op.updateVoterStatus 0 (some 0) none) = true ∧
    Op.updateVoterStatus 0 (some 0) none ∈ c4Ops ∧
    countType (runOps c4Ops) 0 "Constituency" = 2 :=
  ⟨rfl, by decide, rfl⟩

/-- C4 (amended): over any run from the empty database whose operations do
not include `update_voter_status`, every voter ends with at most one
persisted `Constituency`-type ballot and at most one persisted
`PartyList`-type ballot, regardless of validity. -/
theorem C4_at_most_one_per_type (ops : List Op)
    (hops : ∀ op ∈ ops, op.isStatusUpdate = false) (i : Nat) :
    countType (runOps ops) i "Constituency" ≤ 1 ∧
    countType (runOps ops) i "PartyList" ≤ 1 := by
  obtain ⟨h1, h2, h3⟩ := LedgerInv_run ops hops
  cases hgv : getVoter (runOps ops) i with
  | some v => exact ⟨(h3 i v hgv).1.1, (h3 i v hgv).2.1⟩
  | none =>
    have hge : (runOps ops).voters.length ≤ i := by
      by_contra hlt
      push_neg at hlt
      have hin : i ∈ (runOps ops).voters.map (fun v => v.voter_id) := by
        rw [h1]
        exact List.mem_range.mpr hlt
      obtain ⟨w, hw, hwi⟩ := List.mem_map.mp hin
      have hsome : (getVoterL (runOps ops).voters i).isSome = true :=
        List.find?_isSome.mpr ⟨w, hw, by simp [hwi]⟩
      rw [show getVoterL (runOps ops).voters i = getVoter (runOps ops) i from rfl,
          hgv] at hsome
      exact Bool.noConfusion hsome
    have hz : ∀ t, countType (runOps ops) i t = 0 := by
      intro t
      apply countTypeL_eq_zero
      intro b hb
      have := h2 b hb
      omega
    rw [hz "Constituency", hz "PartyList"]
    exact ⟨by omega, by omega⟩

/-- C4 witness: the status-override-free prefix of the counterexample run
respects the one-ballot-per-type bound for voter 0. -/
theorem C4_witness :
    (∀ op ∈ c4OpsBase, op.isStatusUpdate = false) ∧
    countType (runOps c4OpsBase) 0 "Constituency" ≤ 1 ∧
    countType (runOps c4OpsBase) 0 "PartyList" ≤ 1 :=
  ⟨by decide, C4_at_most_one_per_type c4OpsBase (by decide) 0⟩
